import Mathlib

/-!
Verification of the lifecycle/instrumentation layer of the HTTP server
bootstrap (src/server/index.ts), shallowly embedded in Lean.

Environment variables are modelled as `Option String` (a set variable
carries its string value, an unset variable is `none`).  JavaScript
truthiness of `||` chains is modelled explicitly where the source uses it.
-/

namespace Server

/-- The slice of the process environment that src/server/index.ts reads:
NODE_ENV, PORT and REPL_ID. -/
structure Env where
  nodeEnv : Option String
  port : Option String
  replId : Option String
deriving DecidableEq, Repr

/-- JavaScript falsiness of a string environment variable under `!x`:
an unset variable and one set to the empty string are both falsy. -/
def jsFalsyStr (x : Option String) : Bool :=
  match x with
  | some s => s == ""
  | none => true

/-- index.ts lines 89-92:
`const isProduction = process.env.NODE_ENV === "production" ||
 process.env.PORT === "5000" || process.env.PORT === "8080" ||
 !process.env.REPL_ID;`
The last disjunct is JavaScript truthiness: REPL_ID unset and
REPL_ID set to the empty string both count as absent. -/
def isProduction (e : Env) : Bool :=
  e.nodeEnv == some "production" || e.port == some "5000" ||
    e.port == some "8080" || jsFalsyStr e.replId

/-- JavaScript string truthiness for `x || d`: an unset variable and the
empty string both fall through to the default. -/
def jsOrStr (x : Option String) (d : String) : String :=
  match x with
  | some s => if s = "" then d else s
  | none => d

/-- Modelled from the spec: the framework environment accessor
`app.get("env")` lives in the express library, not in src/.  Express sets
it to NODE_ENV, defaulting to "development" when NODE_ENV is unset or
empty. -/
def appEnv (e : Env) : String := jsOrStr e.nodeEnv "development"

/-- index.ts line 94: the development pipeline is attempted only when
`!isProduction && app.get("env") === "development"`. -/
def devPipelineAttempted (e : Env) : Bool :=
  !isProduction e && (appEnv e == "development")

/-! ## Request logger (index.ts lines 38-66) -/

/-- The JavaScript test `path.startsWith("/api")` (index.ts line 51),
modelled character-wise: the logger treats every path whose characters
begin with `/api` as monitored. -/
def pathUnderApi (p : String) : Bool := "/api".data.isPrefixOf p.data

/-- One HTTP exchange as the logger middleware sees it: method, the path
captured at entry, the final status code, elapsed milliseconds, and the
JSON response summary captured by the res.json hook (already
stringified), when one was produced. -/
structure RequestRecord where
  method : String
  path : String
  status : Nat
  duration : Nat
  captured : Option String
deriving DecidableEq, Repr

/-- index.ts line 52: the base log line
`METHOD PATH STATUS in Nms`. -/
def baseLine (r : RequestRecord) : String :=
  r.method ++ " " ++ r.path ++ " " ++ toString r.status ++ " in " ++
    toString r.duration ++ "ms"

/-- index.ts lines 52-55: append ` :: <json>` when a JSON body was
captured. -/
def summaryLine (r : RequestRecord) : String :=
  match r.captured with
  | some j => baseLine r ++ " :: " ++ j
  | none => baseLine r

/-- index.ts lines 57-59:
`if (logLine.length > 80) logLine = logLine.slice(0, 79) + "…";` -/
def truncateLine (s : String) : String :=
  if s.length > 80 then String.mk (s.data.take 79) ++ "…" else s

/-- index.ts lines 49-63: the "finish" handler emits exactly one line for
paths under the monitored "/api" namespace and nothing otherwise. -/
def finishLog (r : RequestRecord) : List String :=
  if pathUnderApi r.path then [truncateLine (summaryLine r)] else []

/-! ## Rate limiter (index.ts lines 13-33) -/

/-- The configuration object passed to express-rate-limit at
index.ts lines 27-31. -/
structure LimiterConfig where
  windowMs : Nat
  max : Nat
  message : String
deriving DecidableEq, Repr

/-- index.ts lines 27-31: 15-minute window, 100 requests per client per
window, with the explanatory rejection message. -/
def limiter : LimiterConfig :=
  { windowMs := 15 * 60 * 1000
    max := 100
    message := "Too many requests from this IP, please try again later." }

/-- What a middleware stage does with one request: pass it downstream or
reject it with a message, never letting it reach later stages. -/
inductive Outcome where
  | passed : Outcome
  | limited (msg : String) : Outcome
deriving DecidableEq, Repr

/-- Modelled from the spec: the fixed-window counting algorithm of
express-rate-limit is library code, absent from src/.  Per the spec it
counts requests per originating client per window; the i-th request of a
client within one window (1-based) passes exactly when i is at most the
configured maximum, and any request beyond it is rejected with the
configured message. -/
def fixedWindowOutcome (cfg : LimiterConfig) (i : Nat) : Outcome :=
  if i ≤ cfg.max then Outcome.passed else Outcome.limited cfg.message

/-- Modelled from the spec: the matching done by the Express mount
`app.use("/api", limiter)` (index.ts line 32) is express library code
absent from src/.  Express mounts match at segment boundaries: the path
`/api` itself or any path continuing with a slash, never a path such as
`/apifoo` that merely shares the characters. -/
def onApiMount (p : String) : Bool :=
  p == "/api" || "/api/".data.isPrefixOf p.data

/-- index.ts lines 13 and 32: the limiter is mounted on "/api" only
inside the `process.env.NODE_ENV === "production"` block, so a request is
subject to rate limiting exactly when that flag is set and its path is
matched by the "/api" mount.  `i` is the 1-based index of the request
among the requests of its client inside the current window. -/
def apiRequestOutcome (e : Env) (path : String) (i : Nat) : Outcome :=
  if e.nodeEnv == some "production" && onApiMount path then
    fixedWindowOutcome limiter i
  else Outcome.passed

/-! ## Terminal error-handling middleware (index.ts lines 78-84) -/

/-- An error value as the error middleware inspects it: optional numeric
status and statusCode fields and an optional message field. -/
structure JsError where
  status : Option Nat
  statusCode : Option Nat
  message : Option String
deriving DecidableEq, Repr

/-- JavaScript truthiness of a numeric field: an absent field and the
number 0 are both falsy under `||`. -/
def jsTruthyNat (x : Option Nat) : Option Nat :=
  match x with
  | some n => if n = 0 then none else some n
  | none => none

/-- index.ts line 79: `err.status || err.statusCode || 500`. -/
def errStatus (e : JsError) : Nat :=
  ((jsTruthyNat e.status).or (jsTruthyNat e.statusCode)).getD 500

/-- index.ts line 80: `err.message || "Internal Server Error"`. -/
def errMessage (e : JsError) : String :=
  jsOrStr e.message "Internal Server Error"

/-- What the terminal error stage produces: the HTTP status it writes,
the message field of the JSON body it sends, and the error it re-raises
with `throw err`. -/
structure ErrorHandlerResult where
  responseStatus : Nat
  responseMessage : String
  rethrown : JsError
deriving DecidableEq, Repr

/-- index.ts lines 78-84:
`const status = err.status || err.statusCode || 500;
 const message = err.message || "Internal Server Error";
 res.status(status).json({ message });  throw err;` -/
def errorMiddleware (e : JsError) : ErrorHandlerResult :=
  { responseStatus := errStatus e
    responseMessage := errMessage e
    rethrown := e }

/-! ## Content delivery startup (index.ts lines 94-166) -/

/-- The two mutually exclusive content-delivery implementations. -/
inductive Delivery where
  | vitePipeline : Delivery
  | staticFiles : Delivery
deriving DecidableEq, Repr

/-- The per-process lifecycle states of section 4.5 of the spec. -/
inductive LifecycleState where
  | starting : LifecycleState
  | listening : LifecycleState
  | shuttingDown : LifecycleState
  | stopped : LifecycleState
deriving DecidableEq, Repr

/-- The observable result of the startup sequence: which content-delivery
implementation ended up mounted, whether the fallback branch logged its
failure message, and the lifecycle state reached. -/
structure StartupResult where
  delivery : Delivery
  fallbackLogged : Bool
  state : LifecycleState
deriving DecidableEq, Repr

/-- index.ts lines 94-178: when the development pipeline is attempted,
the whole vite setup sits in a try block whose catch logs
"Failed to setup Vite development server, serving static files" and calls
serveStatic; otherwise serveStatic is mounted directly.  In every branch
execution continues to server.listen, so the process reaches the
listening state.  `viteSetupOk` records whether the awaited vite setup
succeeded or threw. -/
def startup (e : Env) (viteSetupOk : Bool) : StartupResult :=
  if devPipelineAttempted e then
    if viteSetupOk then
      { delivery := Delivery.vitePipeline, fallbackLogged := false
        state := LifecycleState.listening }
    else
      { delivery := Delivery.staticFiles, fallbackLogged := true
        state := LifecycleState.listening }
  else
    { delivery := Delivery.staticFiles, fallbackLogged := false
      state := LifecycleState.listening }

/-! ## Development transform-pipeline error paths
     (index.ts lines 111-155) -/

/-- The elementary effects of the two development-mode error paths. -/
inductive DevAction where
  | logMsg : DevAction
  | processExit (code : Nat) : DevAction
  | ssrFix : DevAction
  | nextErr : DevAction
  | sendHtml : DevAction
deriving DecidableEq, Repr

/-- index.ts lines 113-119: the custom vite logger overrides `error` with
a handler that forwards the message to the underlying logger and then
calls `process.exit(1)`. -/
def viteLoggerErrorActions : List DevAction :=
  [DevAction.logMsg, DevAction.processExit 1]

/-- index.ts lines 140-155: the development catch-all renders the page;
on success it sends the transformed HTML, and on a thrown error it calls
`viteServer.ssrFixStacktrace(e)` and then `next(e)`, handing the error to
the terminal error stage instead of exiting. -/
def catchAllActions (renderFails : Bool) : List DevAction :=
  if renderFails then [DevAction.ssrFix, DevAction.nextErr]
  else [DevAction.sendHtml]

/-! ## Shutdown (index.ts lines 180-196) -/

/-- The events that drive the shutdown-related part of the event loop:
receipt of a termination or interrupt signal, completion of connection
draining (the server.close callback), and expiry of an armed grace-period
timer. -/
inductive SEvent where
  | signal : SEvent
  | drainDone : SEvent
  | timerFire : SEvent
deriving DecidableEq, Repr

/-- The observable shutdown state of the process: its lifecycle state,
how many grace-period timers have been armed, how many times
server.close has been called, and the exit status once the process has
terminated. -/
structure Proc where
  state : LifecycleState
  timers : Nat
  closeIssued : Nat
  exited : Option Nat
deriving DecidableEq, Repr

/-- The process right after server.listen succeeded. -/
def initialProc : Proc :=
  { state := LifecycleState.listening, timers := 0, closeIssued := 0
    exited := none }

/-- index.ts lines 181-193: `gracefulShutdown` runs on every received
SIGTERM or SIGINT with no guard: it logs, calls server_instance.close
(registering a drain callback) and arms a fresh 10-second timer.  Once
the process has exited nothing runs any more, which the `exited` check
models. -/
def onSignal (p : Proc) : Proc :=
  if p.exited.isSome then p
  else
    { p with state := LifecycleState.shuttingDown, timers := p.timers + 1
             closeIssued := p.closeIssued + 1 }

/-- index.ts lines 183-186: the server.close callback logs
"HTTP server closed." and calls `process.exit(0)`; it can only run after
close was issued and while the process is still alive. -/
def onDrainDone (p : Proc) : Proc :=
  if p.exited.isSome then p
  else if p.closeIssued > 0 then
    { p with state := LifecycleState.stopped, exited := some 0 }
  else p

/-- index.ts lines 189-192: an armed grace-period timer fires, logs
"Forcing shutdown after timeout" and calls `process.exit(1)`. -/
def onTimerFire (p : Proc) : Proc :=
  if p.exited.isSome then p
  else if p.timers > 0 then
    { p with state := LifecycleState.stopped, exited := some 1 }
  else p

/-- Dispatch one event-loop event. -/
def step (p : Proc) (e : SEvent) : Proc :=
  match e with
  | SEvent.signal => onSignal p
  | SEvent.drainDone => onDrainDone p
  | SEvent.timerFire => onTimerFire p

/-- Run the process from the listening state through a timeline of
events; the order of the list is the temporal order the single-threaded
event loop sees. -/
def run (events : List SEvent) : Proc :=
  events.foldl step initialProc

/-- The fixed grace period of index.ts line 192, in milliseconds. -/
def gracePeriodMs : Nat := 10000

/-! ## Helper lemmas -/

lemma length_truncateLine (s : String) : (truncateLine s).length ≤ 80 := by
  unfold truncateLine
  split
  · show (String.mk (s.data.take 79) ++ "…").length ≤ 80
    have h : (String.mk (s.data.take 79) ++ "…").length =
        (s.data.take 79).length + 1 := by
      rw [String.length_append, String.length_mk]
      rfl
    rw [h]
    have := List.length_take 79 s.data
    omega
  · omega

lemma jsTruthyNat_eq_some (x : Option Nat) (n : Nat)
    (h : jsTruthyNat x = some n) : x = some n := by
  cases x with
  | none => simp [jsTruthyNat] at h
  | some k =>
    simp only [jsTruthyNat] at h
    split at h
    · exact absurd h (by simp)
    · simpa using h

lemma foldl_step_of_exited (l : List SEvent) (p : Proc)
    (h : p.exited.isSome = true) : l.foldl step p = p := by
  induction l with
  | nil => rfl
  | cons a l ih =>
    have hs : step p a = p := by
      cases a <;> simp [step, onSignal, onDrainDone, onTimerFire, h]
    rw [List.foldl_cons, hs, ih]

lemma foldl_signals (n : Nat) (p : Proc) (h : p.exited = none) :
    (((List.replicate n SEvent.signal).foldl step p).timers = p.timers + n ∧
     ((List.replicate n SEvent.signal).foldl step p).closeIssued =
       p.closeIssued + n) ∧
    ((List.replicate n SEvent.signal).foldl step p).exited = none := by
  induction n generalizing p with
  | zero => simp [h]
  | succ n ih =>
    rw [List.replicate_succ, List.foldl_cons]
    have hs : step p SEvent.signal =
        { p with state := LifecycleState.shuttingDown
                 timers := p.timers + 1
                 closeIssued := p.closeIssued + 1 } := by
      simp [step, onSignal, h]
    rw [hs]
    have := ih { p with state := LifecycleState.shuttingDown
                        timers := p.timers + 1
                        closeIssued := p.closeIssued + 1 } (by simp [h])
    refine ⟨⟨?_, ?_⟩, this.2⟩
    · rw [this.1.1]
      show p.timers + 1 + n = p.timers + (n + 1)
      omega
    · rw [this.1.2]
      show p.closeIssued + 1 + n = p.closeIssued + (n + 1)
      omega

/-! ## Claim theorems -/

/-- C2 counterexample: with NODE_ENV and PORT unset and REPL_ID set to
the empty string, the development-host identifier is present in the
environment and no other production condition holds, yet the program
selects Production — `!process.env.REPL_ID` treats the empty string as
absent, so "Production exactly when the flag is set, the port matches,
or the identifier is absent from the environment" fails here. -/
theorem mode_selector_empty_repl_id_counterexample :
    isProduction ⟨none, none, some ""⟩ = true ∧
    ¬ ((⟨none, none, some ""⟩ : Env).nodeEnv = some "production" ∨
       (⟨none, none, some ""⟩ : Env).port = some "5000" ∨
       (⟨none, none, some ""⟩ : Env).port = some "8080" ∨
       (⟨none, none, some ""⟩ : Env).replId = none) := by
  decide

/-- C2 (amended): the mode selector returns Production exactly when the
explicit production flag is set, or the PORT value equals a known
production port, or the development-host identifier REPL_ID is absent
from the environment or set to the empty string; with no environment
signals at all it resolves to Production; and even when it returns
Development, the development pipeline is attempted only if the secondary
marker (the framework environment accessor) also indicates a development
run. -/
theorem mode_selector_contract (e : Env) :
    (isProduction e = true ↔
      (e.nodeEnv = some "production" ∨ e.port = some "5000" ∨
       e.port = some "8080" ∨ e.replId = none ∨ e.replId = some "")) ∧
    isProduction ⟨none, none, none⟩ = true ∧
    (devPipelineAttempted e = true → appEnv e = "development") := by
  refine ⟨?_, by decide, ?_⟩
  · cases hr : e.replId with
    | none => simp [isProduction, jsFalsyStr, hr, or_assoc]
    | some s => simp [isProduction, jsFalsyStr, hr, or_assoc]
  · intro h
    simp only [devPipelineAttempted, Bool.and_eq_true, beq_iff_eq] at h
    exact h.2

/-- Witness for C2 at a concrete environment: NODE_ENV unset, PORT unset,
REPL_ID set gives Development with the secondary marker indicating a
development run. -/
theorem mode_selector_contract_witness :
    appEnv ⟨none, none, some "r"⟩ = "development" :=
  (mode_selector_contract ⟨none, none, some "r"⟩).2.2 (by decide)

/-- C10 counterexample: REPL_ID present but set to the empty string,
NODE_ENV entirely unset and PORT neither "5000" nor "8080" satisfies the
hypotheses of the claim, yet the program does not attempt the
development pipeline: `!process.env.REPL_ID` treats the empty string as
absent, making isProduction true. -/
theorem dev_activation_empty_repl_id_counterexample :
    (⟨none, none, some ""⟩ : Env).replId ≠ none ∧
    (⟨none, none, some ""⟩ : Env).nodeEnv = none ∧
    (⟨none, none, some ""⟩ : Env).port ≠ some "5000" ∧
    (⟨none, none, some ""⟩ : Env).port ≠ some "8080" ∧
    devPipelineAttempted ⟨none, none, some ""⟩ = false := by
  decide

/-- C10 (amended): when REPL_ID is present with a non-empty value,
NODE_ENV entirely unset, and PORT is neither "5000" nor "8080", the
development pipeline is attempted, since an unset NODE_ENV makes the
framework accessor default to "development". -/
theorem dev_activation_when_repl_id_present (e : Env) (r : String)
    (h1 : e.replId = some r) (h1' : r ≠ "") (h2 : e.nodeEnv = none)
    (h3 : e.port ≠ some "5000") (h4 : e.port ≠ some "8080") :
    devPipelineAttempted e = true ∧ appEnv e = "development" := by
  have hdev : appEnv e = "development" := by
    simp [appEnv, jsOrStr, h2]
  refine ⟨?_, hdev⟩
  simp [devPipelineAttempted, isProduction, jsFalsyStr, h1, h1', h2, hdev,
    h3, h4]

/-- Witness for C10: NODE_ENV unset, PORT unset, REPL_ID set to a
concrete non-empty identifier activates the development pipeline. -/
theorem dev_activation_when_repl_id_present_witness :
    devPipelineAttempted ⟨none, none, some "repl"⟩ = true ∧
    appEnv ⟨none, none, some "repl"⟩ = "development" :=
  dev_activation_when_repl_id_present ⟨none, none, some "repl"⟩ "repl"
    rfl (by decide) rfl (by decide) (by decide)

/-- C3 counterexample: with NODE_ENV, PORT and REPL_ID all unset the
process is in Production mode (absent REPL_ID), yet the limiter is not
mounted — it sits inside the `NODE_ENV === "production"` block — so the
101st request of a client on /api/x within one window passes instead of
being rejected, falsifying "in Production mode the 101st receives a
rejection". -/
theorem rate_limit_counterexample :
    isProduction ⟨none, none, none⟩ = true ∧
    pathUnderApi "/api/x" = true ∧
    apiRequestOutcome ⟨none, none, none⟩ "/api/x" 101 = Outcome.passed := by
  decide

/-- C3 (amended): the limiter is configured with a 15-minute fixed
window and 100 requests per client per window, and applies exactly when
the explicit NODE_ENV production flag is set — a strict subset of
Production mode — and the path is matched by the segment-boundary /api
mount: then request 100 of a client within one window passes and request
101 is rejected with the configured message (and so never reaches
downstream stages).  When the flag is unset — including Production-mode
runs selected via PORT or an absent REPL_ID, and every run outside
Production — no request is rate limited, and paths off the mount are
never rate limited. -/
theorem rate_limit_contract (e : Env) (p : String)
    (hp : onApiMount p = true) :
    limiter.windowMs = 15 * 60 * 1000 ∧ limiter.max = 100 ∧
    (e.nodeEnv = some "production" →
      apiRequestOutcome e p 100 = Outcome.passed ∧
      apiRequestOutcome e p 101 = Outcome.limited limiter.message ∧
      isProduction e = true) ∧
    (e.nodeEnv ≠ some "production" →
      ∀ i, apiRequestOutcome e p i = Outcome.passed) ∧
    (∀ q i, onApiMount q = false →
      apiRequestOutcome e q i = Outcome.passed) := by
  refine ⟨rfl, rfl, ?_, ?_, ?_⟩
  · intro h
    refine ⟨?_, ?_, ?_⟩
    · simp [apiRequestOutcome, h, hp, fixedWindowOutcome, limiter]
    · simp [apiRequestOutcome, h, hp, fixedWindowOutcome, limiter]
    · simp [isProduction, h]
  · intro h i
    have hn : (e.nodeEnv == some "production") = false := by
      simpa using h
    simp [apiRequestOutcome, hn]
  · intro q i hq
    simp [apiRequestOutcome, hq]

/-- Witness for C3: with the production flag set and path /api/x, the
100th request passes and the 101st is rejected with the configured
message. -/
theorem rate_limit_contract_witness :
    apiRequestOutcome ⟨some "production", none, none⟩ "/api/x" 100 =
      Outcome.passed ∧
    apiRequestOutcome ⟨some "production", none, none⟩ "/api/x" 101 =
      Outcome.limited limiter.message :=
  ⟨((rate_limit_contract ⟨some "production", none, none⟩ "/api/x"
      (by decide)).2.2.1 rfl).1,
   ((rate_limit_contract ⟨some "production", none, none⟩ "/api/x"
      (by decide)).2.2.1 rfl).2.1⟩

/-- C7: when the development pipeline is attempted but its setup fails,
the catch branch logs the failure and mounts the static-serving
implementation instead, and the process still reaches the Listening
state (as it also does when setup succeeds). -/
theorem vite_fallback_to_static (e : Env)
    (h : devPipelineAttempted e = true) :
    (startup e false).delivery = Delivery.staticFiles ∧
    (startup e false).fallbackLogged = true ∧
    (startup e false).state = LifecycleState.listening ∧
    (startup e true).state = LifecycleState.listening := by
  simp [startup, h]

/-- Witness for C7 at a concrete development environment. -/
theorem vite_fallback_to_static_witness :
    (startup ⟨none, none, some "r2"⟩ false).delivery =
      Delivery.staticFiles :=
  (vite_fallback_to_static ⟨none, none, some "r2"⟩ (by decide)).1

/-- C4: every line the request logger emits is the truncation of the
assembled line — anything beyond the fixed maximum is replaced so that a
single ellipsis character ends the line — and its length never exceeds 81
characters (indeed never exceeds 80). -/
theorem log_line_truncation (r : RequestRecord) (l : String)
    (hl : l ∈ finishLog r) :
    l = truncateLine (summaryLine r) ∧ l.length ≤ 81 := by
  unfold finishLog at hl
  split at hl
  · have he : l = truncateLine (summaryLine r) := by
      simpa using hl
    exact ⟨he, he ▸ (length_truncateLine (summaryLine r)).trans (by omega)⟩
  · exact absurd hl (List.not_mem_nil l)

/-- Witness for C4: the concrete emitted line for GET /api/h has length
at most 81. -/
theorem log_line_truncation_witness :
    "GET /api/h 200 in 3ms".length ≤ 81 :=
  (log_line_truncation ⟨"GET", "/api/h", 200, 3, none⟩
    "GET /api/h 200 in 3ms" (by decide)).2

/-- C5: for a request whose path lies under the monitored /api
namespace the logger emits exactly one line, built as
`METHOD PATH STATUS in Nms` with ` :: <jsonSummary>` appended exactly
when a structured body was captured (then truncated); for any other path
it emits nothing. -/
theorem request_logger_emission (r : RequestRecord) :
    (pathUnderApi r.path = true →
      finishLog r =
        [truncateLine
          (match r.captured with
           | some j => baseLine r ++ " :: " ++ j
           | none => baseLine r)]) ∧
    (pathUnderApi r.path = false → finishLog r = []) := by
  constructor <;> intro h <;> simp [finishLog, h, summaryLine]

/-- Witness for C5: one concrete matched request yields exactly its one
log line, and one concrete unmatched request yields none. -/
theorem request_logger_emission_witness :
    finishLog ⟨"GET", "/api/h", 200, 3, none⟩ = ["GET /api/h 200 in 3ms"] ∧
    finishLog ⟨"GET", "/h", 200, 3, none⟩ = [] :=
  ⟨by
    rw [(request_logger_emission ⟨"GET", "/api/h", 200, 3, none⟩).1
      (by decide)]
    decide,
   (request_logger_emission ⟨"GET", "/h", 200, 3, none⟩).2 (by decide)⟩

/-- C9: for every error with a non-empty message, the terminal error
stage responds with a body carrying exactly that message and a status
that is either taken from the status or statusCode field of the error or
defaulted to 500, and re-raises the very same error. -/
theorem error_middleware_contract (e : JsError) (m : String)
    (hm : e.message = some m) (hm0 : m ≠ "") :
    (errorMiddleware e).rethrown = e ∧
    (errorMiddleware e).responseMessage = m ∧
    ((errorMiddleware e).responseStatus = 500 ∨
      e.status = some ((errorMiddleware e).responseStatus) ∨
      e.statusCode = some ((errorMiddleware e).responseStatus)) := by
  refine ⟨rfl, ?_, ?_⟩
  · simp [errorMiddleware, errMessage, jsOrStr, hm, hm0]
  · show errStatus e = 500 ∨ e.status = some (errStatus e) ∨
      e.statusCode = some (errStatus e)
    unfold errStatus
    cases hs : jsTruthyNat e.status with
    | some n =>
      right; left
      rw [jsTruthyNat_eq_some e.status n hs]
      simp [Option.or]
    | none =>
      cases hc : jsTruthyNat e.statusCode with
      | some n =>
        right; right
        rw [jsTruthyNat_eq_some e.statusCode n hc]
        simp [Option.or]
      | none => left; simp [Option.or]

/-- Witness for C9 at a concrete 404 error. -/
theorem error_middleware_contract_witness :
    (errorMiddleware ⟨some 404, none, some "Not Found"⟩).rethrown =
      ⟨some 404, none, some "Not Found"⟩ ∧
    (errorMiddleware ⟨some 404, none, some "Not Found"⟩).responseMessage =
      "Not Found" :=
  ⟨(error_middleware_contract ⟨some 404, none, some "Not Found"⟩
      "Not Found" rfl (by decide)).1,
   (error_middleware_contract ⟨some 404, none, some "Not Found"⟩
      "Not Found" rfl (by decide)).2.1⟩

/-- C1 counterexample: two termination signals received while still
alive run the shutdown sequence twice and arm two grace-period timers —
the handler has no idempotence guard, so the timer is not armed exactly
once. -/
theorem shutdown_two_signals_two_timers :
    (run [SEvent.signal, SEvent.signal]).timers = 2 ∧
    (run [SEvent.signal, SEvent.signal]).closeIssued = 2 ∧
    ¬ (run [SEvent.signal, SEvent.signal]).timers = 1 := by
  decide

/-- C1 (amended): every termination or interrupt signal received before
the process exits re-runs the shutdown sequence; n such signals issue n
close calls and arm n grace-period timers, so nothing restricts the
sequence to running once. -/
theorem shutdown_signal_accumulation (n : Nat) :
    (run (List.replicate n SEvent.signal)).timers = n ∧
    (run (List.replicate n SEvent.signal)).closeIssued = n := by
  have h := foldl_signals n initialProc rfl
  constructor
  · simpa [run, initialProc] using h.1.1
  · simpa [run, initialProc] using h.1.2

/-- C6 counterexample: an error reported through the transform
pipeline logger error channel is logged and then terminates the process
with exit status 1 — it is not propagated as a pipeline error, so not
every transform-pipeline error avoids crashing the process. -/
theorem vite_logger_error_exits :
    DevAction.processExit 1 ∈ viteLoggerErrorActions ∧
    DevAction.nextErr ∉ viteLoggerErrorActions := by
  decide

/-- C6 (amended): an error raised while rendering a page is handed to
the stack-trace fixup and propagated via next as a normal pipeline
error — never a process exit — while an error reported through the
custom logger error channel is logged and then exits the process with
status 1. -/
theorem dev_error_paths :
    catchAllActions true = [DevAction.ssrFix, DevAction.nextErr] ∧
    (∀ c, DevAction.processExit c ∉ catchAllActions true) ∧
    viteLoggerErrorActions = [DevAction.logMsg, DevAction.processExit 1] := by
  refine ⟨rfl, ?_, rfl⟩
  intro c
  simp [catchAllActions]

/-- C8: once a signal starts the shutdown, the first of the two
completion events decides the outcome whatever happens afterwards: if
connection draining finishes first the process stops with exit status 0,
and if the grace-period timer (10000 ms) fires first it stops with the
non-zero status 1. -/
theorem shutdown_first_event_decides (tail : List SEvent) :
    ((run (SEvent.signal :: SEvent.drainDone :: tail)).exited = some 0 ∧
     (run (SEvent.signal :: SEvent.drainDone :: tail)).state =
       LifecycleState.stopped) ∧
    ((run (SEvent.signal :: SEvent.timerFire :: tail)).exited = some 1 ∧
     (run (SEvent.signal :: SEvent.timerFire :: tail)).state =
       LifecycleState.stopped) ∧
    gracePeriodMs = 10000 := by
  have h0 : run (SEvent.signal :: SEvent.drainDone :: tail) =
      tail.foldl step (step (step initialProc SEvent.signal)
        SEvent.drainDone) := rfl
  have h1 : run (SEvent.signal :: SEvent.timerFire :: tail) =
      tail.foldl step (step (step initialProc SEvent.signal)
        SEvent.timerFire) := rfl
  have e0 : step (step initialProc SEvent.signal) SEvent.drainDone =
      ⟨LifecycleState.stopped, 1, 1, some 0⟩ := by decide
  have e1 : step (step initialProc SEvent.signal) SEvent.timerFire =
      ⟨LifecycleState.stopped, 1, 1, some 1⟩ := by decide
  rw [h0, h1, e0, e1,
    foldl_step_of_exited tail ⟨LifecycleState.stopped, 1, 1, some 0⟩ rfl,
    foldl_step_of_exited tail ⟨LifecycleState.stopped, 1, 1, some 1⟩ rfl]
  exact ⟨⟨rfl, rfl⟩, ⟨rfl, rfl⟩, rfl⟩

end Server
